import Mathlib

/-!
# Verification of the RAG-reader core against its specification

Shallow embedding of the pure parts of the repository: the citation
formatter (`src/citation.py`), the chat utilities (`src/utils.py`), the
section-header detector (`src/doc_loader.py`), the retriever construction
logic (`src/retrieval_chain.py`) and the vector-store build guard
(`src/vector_db.py`).  Python strings are modelled by Lean `String`
(ASCII-faithful: Python's `str.lower`, `str.strip`, `str.isupper` are
modelled by their ASCII counterparts, written as executable recursions on
the character list), Python floats by `ℚ`, and Python dicts by
association lists looked up with `List.lookup` (first binding wins, as
dict keys are unique).  Fallible operations are modelled with `Except`.
-/

namespace RagReader

/-- Does the needle occur at the very start of the haystack? -/
def startsWithChars : List Char → List Char → Bool
  | [], _ => true
  | _ :: _, [] => false
  | a :: as, b :: bs => a == b && startsWithChars as bs

/-- Does the needle occur anywhere in the haystack? -/
def containsSubAux (needle : List Char) : List Char → Bool
  | [] => needle.isEmpty
  | c :: cs => startsWithChars needle (c :: cs) || containsSubAux needle cs

/-- Python's `needle in haystack` substring test. -/
def containsSub (haystack needle : String) : Bool :=
  containsSubAux needle.data haystack.data

/-- Python's `str.lower` (ASCII model). -/
def pyLower (s : String) : String :=
  String.mk (s.data.map Char.toLower)

/-- Python's `str.strip` (ASCII model): drop whitespace on both ends. -/
def pyStrip (s : String) : String :=
  String.mk (((s.data.dropWhile Char.isWhitespace).reverse.dropWhile
    Char.isWhitespace).reverse)

/-- Python's `s[:n]` character slice. -/
def pyTake (s : String) (n : Nat) : String :=
  String.mk (s.data.take n)

/-- Python's `str.endswith` with a one-character suffix: test the last
character. -/
def pyEndsWith (s : String) (c : Char) : Bool :=
  s.data.getLast? == some c

/-- Split on the characters satisfying `p`, dropping empty pieces; the
accumulator carries the current piece reversed. -/
def splitDropAux (p : Char → Bool) : List Char → List Char → List String
  | acc, [] => if acc.isEmpty then [] else [String.mk acc.reverse]
  | acc, c :: cs =>
    if p c then
      if acc.isEmpty then splitDropAux p [] cs
      else String.mk acc.reverse :: splitDropAux p [] cs
    else splitDropAux p (c :: acc) cs

/-- Python's `str.split()` with no argument: split on whitespace runs,
discarding empty pieces. -/
def pySplitWS (s : String) : List String :=
  splitDropAux Char.isWhitespace [] s.data

/-- Split on a separator character, keeping empty pieces, as Python's
`str.split(sep)` does. -/
def splitCharAux (sep : Char) : List Char → List Char → List String
  | acc, [] => [String.mk acc.reverse]
  | acc, c :: cs =>
    if c == sep then String.mk acc.reverse :: splitCharAux sep [] cs
    else splitCharAux sep (c :: acc) cs

/-- Python's `str.split(sep)` for a one-character separator. -/
def pySplitChar (s : String) (sep : Char) : List String :=
  splitCharAux sep [] s.data

/-- Join a list of strings with a separator, as Python's `sep.join`. -/
def joinSep (sep : String) : List String → String
  | [] => ""
  | [x] => x
  | x :: y :: ys => x ++ sep ++ joinSep sep (y :: ys)

/-- Python's `str.isupper` (ASCII model): at least one cased (alphabetic)
character, and every cased character is upper-case. -/
def pyIsUpper (s : String) : Bool :=
  s.data.any Char.isAlpha && s.data.all (fun c => !c.isAlpha || c.isUpper)

/-- Python's `str.rfind(ch)`: index of the last occurrence, `-1` if absent. -/
def pyRfind (s : String) (ch : Char) : Int :=
  match s.data.reverse.findIdx? (fun c => c = ch) with
  | none => -1
  | some j => (s.length : Int) - 1 - (j : Int)

/-- A regex word character (`\w`): alphanumeric or underscore. -/
def wordChar (c : Char) : Bool :=
  c.isAlphanum || c = '_'

/-- No word boundary obstruction on the left: start of string or a
non-word character before the match. -/
def boundaryBefore : Option Char → Bool
  | none => true
  | some c => !wordChar c

/-- No word boundary obstruction on the right: end of string or a
non-word character after the match. -/
def boundaryAfter : List Char → Bool
  | [] => true
  | c :: _ => !wordChar c

/-- The four characters match `(19|20)\d{2}`. -/
def yearDigits (a b c d : Char) : Bool :=
  ((a = '1' && b = '9') || (a = '2' && b = '0')) && c.isDigit && d.isDigit

/-- Leftmost-match scan for `re.search(r"\b(19|20)\d{2}\b", s)`:
the accumulator carries the previous character for the left boundary. -/
def findYearAux : Option Char → List Char → Option String
  | _, [] => none
  | prev, x :: xs =>
    match xs with
    | y :: z :: w :: rest =>
      if boundaryBefore prev && yearDigits x y z w && boundaryAfter rest then
        some (String.mk [x, y, z, w])
      else
        findYearAux (some x) xs
    | _ => none

/-- `re.search(r"\b(19|20)\d{2}\b", s)`: the first (leftmost) four-digit
year 1900–2099 appearing as a whole word, if any. -/
def findYear (s : String) : Option String :=
  findYearAux none s.data

/-! ## Citation formatter (`src/citation.py`)

Citation metadata is a Python dict with string keys and string values,
modelled as an association list. -/

/-- Citation metadata: a dict of string fields. -/
abbrev Metadata := List (String × String)

/-- Python's `metadata.get(key, default)`. -/
def mget (md : Metadata) (key dflt : String) : String :=
  (md.lookup key).getD dflt

/-- `GenericCitationFormatter._shorten_title`: titles longer than
`max_words` words are cut and given a trailing ellipsis. -/
def shorten_title (title : String) (max_words : Nat) : String :=
  let words := pySplitWS title
  if words.length > max_words then
    joinSep " " (words.take max_words) ++ "..."
  else
    title

/-- `GenericCitationFormatter._shorten_url`. -/
def shorten_url (url : String) (max_length : Nat) : String :=
  if url.length > max_length then pyTake url max_length ++ "..." else url

/-- The fixed ordered field list scanned by `_extract_year`. -/
def yearFields : List String :=
  ["year", "publication_date", "date", "publish_date"]

/-- The loop body of `_extract_year`: for each field in order, if the
field is present and its value contains a year pattern, return it;
otherwise continue with the remaining fields. -/
def extract_year_go (md : Metadata) : List String → String
  | [] => ""
  | f :: fs =>
    match md.lookup f with
    | none => extract_year_go md fs
    | some v =>
      match findYear v with
      | some y => y
      | none => extract_year_go md fs

/-- `GenericCitationFormatter._extract_year`. -/
def extract_year (md : Metadata) : String :=
  extract_year_go md yearFields

/-- `GenericCitationFormatter._format_guideline_citation`. -/
def format_guideline_citation (md : Metadata) : String :=
  let organization := mget md "organization" "Official Source"
  let year := extract_year md
  let title := mget md "title" ""
  let version := mget md "version" ""
  let report_number := mget md "report_number" ""
  let citation := "[" ++ organization
  let citation := if title ≠ "" then citation ++ " " ++ shorten_title title 5 else citation
  let citation := if report_number ≠ "" then citation ++ " " ++ report_number else citation
  let citation := if version ≠ "" then citation ++ " v" ++ version else citation
  let citation := if year ≠ "" then citation ++ " " ++ year else citation
  citation ++ "]"

/-- `GenericCitationFormatter._format_research_citation`. -/
def format_research_citation (md : Metadata) : String :=
  let authors := mget md "authors" ""
  let journal := mget md "journal" ""
  let year := extract_year md
  let title := mget md "title" ""
  let doi := mget md "doi" ""
  let url := mget md "url" ""
  let author_list := if authors ≠ "" then pySplitChar authors ',' else []
  let authors_str :=
    if author_list.length > 2 then
      author_list.headD "" ++ " et al."
    else if author_list ≠ [] then
      joinSep " & " author_list
    else
      "Anonymous"
  let citation := "[" ++ authors_str
  let citation := if title ≠ "" then citation ++ " '" ++ shorten_title title 6 ++ "'" else citation
  let citation := if journal ≠ "" then citation ++ ", " ++ journal else citation
  let citation := if year ≠ "" then citation ++ " " ++ year else citation
  let citation :=
    if doi ≠ "" then citation ++ " DOI:" ++ doi
    else if url ≠ "" then citation ++ " URL:" ++ shorten_url url 30
    else citation
  citation ++ "]"

/-- `GenericCitationFormatter._format_educational_citation`. -/
def format_educational_citation (md : Metadata) : String :=
  let publisher := mget md "publisher" "Educational Material"
  let year := extract_year md
  let title := mget md "title" ""
  let citation := "[" ++ publisher
  let citation := if title ≠ "" then citation ++ " " ++ shorten_title title 5 else citation
  let citation := if year ≠ "" then citation ++ " " ++ year else citation
  citation ++ "]"

/-- `GenericCitationFormatter._format_web_citation`. -/
def format_web_citation (md : Metadata) : String :=
  let site_name := mget md "site_name" "Website"
  let page_title := mget md "page_title" ""
  let url := mget md "url" ""
  let publish_date := extract_year md
  let access_date := mget md "access_date" ""
  let citation := "[" ++ site_name
  let citation := if page_title ≠ "" then citation ++ " '" ++ shorten_title page_title 5 ++ "'" else citation
  let citation := if publish_date ≠ "" then citation ++ " " ++ publish_date else citation
  let citation := if url ≠ "" then citation ++ " URL:" ++ shorten_url url 30 else citation
  let citation := if access_date ≠ "" then citation ++ " (accessed " ++ access_date ++ ")" else citation
  citation ++ "]"

/-- `GenericCitationFormatter._format_default_citation`. -/
def format_default_citation (md : Metadata) : String :=
  let source := mget md "source" "Source"
  let title := mget md "title" ""
  let year := extract_year md
  let citation := "[" ++ source
  let citation := if title ≠ "" then citation ++ " " ++ shorten_title title 5 else citation
  let citation := if year ≠ "" then citation ++ " " ++ year else citation
  citation ++ "]"

/-- `GenericCitationFormatter.format_citation`: dispatch on the lowered
`source_type` field, defaulting to the generic format. -/
def format_citation (md : Metadata) : String :=
  let source_type := pyLower (mget md "source_type" "")
  if source_type = "official_guideline" then format_guideline_citation md
  else if source_type = "research_article" then format_research_citation md
  else if source_type = "educational_material" then format_educational_citation md
  else if source_type = "web_page" then format_web_citation md
  else format_default_citation md

/-! ## Chat utilities (`src/utils.py`)

Documents carry text and metadata; relevance scores are Python floats,
modelled by `ℚ`. -/

/-- A langchain `Document`: page content plus a metadata dict whose values
relevant here (relevance scores) are numeric. -/
structure Document where
  page_content : String
  metadata : List (String × ℚ)
deriving DecidableEq, Repr

/-- The lexical term-overlap ratio of the fallback branch of
`ChatUtils.filter_documents_by_relevance`: the fraction of distinct
lowered query terms occurring (as substrings, via Python's `in`) in the
lowered chunk text. -/
def overlapFrac (query content : String) : ℚ :=
  let query_terms := (pySplitWS (pyLower query)).dedup
  let c := pyLower content
  let nmatches := (query_terms.filter (fun t => containsSub c t)).length
  (nmatches : ℚ) / (max 1 query_terms.length : ℚ)

/-- `ChatUtils.filter_documents_by_relevance`: if the first document's
metadata has the score field, keep documents whose score (default 0) is
at least `min_score`; otherwise fall back to the lexical overlap ratio. -/
def filter_documents_by_relevance (docs : List Document) (query : String)
    (min_score : ℚ) (score_field : String) : List Document :=
  match docs with
  | [] => []
  | d0 :: _ =>
    if (d0.metadata.lookup score_field).isSome then
      docs.filter (fun d => (d.metadata.lookup score_field).getD 0 ≥ min_score)
    else
      docs.filter (fun d => overlapFrac query d.page_content ≥ min_score)

/-- `ChatUtils.generate_disclaimer`: domain- and keyword-sensitive
disclaimer selection. -/
def generate_disclaimer (query domain : String) : String :=
  let query_lower := pyLower query
  let domain := pyLower domain
  if domain = "medical" || domain = "health" then
    if ["diagnos", "symptom", "signs of"].any (fun t => containsSub query_lower t) then
      "**Disclaimer**: This information is not a substitute for professional advice. Consult a qualified provider for personal guidance."
    else if ["treat", "medication", "therapy"].any (fun t => containsSub query_lower t) then
      "**Notice**: Discuss all options with a professional. Individual responses may vary."
    else
      "**General Disclaimer**: This information is for educational purposes only. Always consult qualified professionals when needed."
  else if domain = "legal" || domain = "law" then
    "**Legal Notice**: This does not constitute legal advice. Consult an attorney for your specific situation."
  else if domain = "financial" || domain = "investment" then
    "**Financial Disclaimer**: This is not financial advice. Consult a qualified financial advisor before making decisions."
  else
    "**General Disclaimer**: This information is for educational purposes only. Always consult qualified professionals when needed."

/-- The truncation step of `ChatUtils.format_response`: cut back to the
last period within the first `max_length` characters (when one exists at
a positive index) and append the truncation marker. -/
def truncate_response (response : String) (max_length : Nat) : String :=
  if response.length > max_length then
    let last_period := pyRfind (pyTake response max_length) '.'
    let response :=
      if last_period > 0 then pyTake response (last_period.toNat + 1) else response
    response ++ " [response truncated]"
  else
    response

/-- `ChatUtils.format_response`: optionally append a disclaimer (only when
the response does not already mention one), then truncate. -/
def format_response (response : String) (max_length : Nat)
    (include_disclaimer : Bool) (domain : String) : String :=
  let response :=
    if include_disclaimer && !containsSub (pyLower response) "disclaimer" then
      response ++ "\n\n" ++ generate_disclaimer response domain
    else
      response
  truncate_response response max_length

/-! ## Section-header detection (`src/doc_loader.py`) -/

/-- The header test of `DocumentLoader._extract_section_header`: a line
qualifies if it is upper-case (Python `str.isupper`), ends with a colon,
or contains one of the structural keywords. -/
def is_header_line (line : String) : Bool :=
  pyIsUpper line || pyEndsWith line ':' ||
    ["section", "chapter", "heading"].any (fun w => containsSub (pyLower line) w)

/-- The loop of `_extract_section_header` over the examined lines. -/
def extract_section_header_go : List String → String
  | [] => ""
  | l :: ls =>
    let line := pyStrip l
    if is_header_line line then line else extract_section_header_go ls

/-- `DocumentLoader._extract_section_header`: check the first three lines
for a header-like line, returning it stripped, else the empty string. -/
def extract_section_header (text : String) : String :=
  extract_section_header_go ((pySplitChar text '\n').take 3)

/-! ## Retriever construction (`src/retrieval_chain.py`)

`RetrievalChain.get_retriever` validates the search type and threshold
and then hands the assembled `search_kwargs` to the vector store's
`as_retriever`.  The vector store is external; the retriever is modelled
by the data `get_retriever` passes to it. -/

/-- The retriever configuration handed to `vectorstore.as_retriever`. -/
structure Retriever where
  search_type : String
  k : Int
  score_threshold : Option ℚ
  filter : Option (List (String × String))
  fetch_k : Option Int
deriving DecidableEq, Repr

/-- `RetrievalChain.get_retriever`: validation and `search_kwargs`
assembly; `ValueError` branches become `Except.error`. -/
def get_retriever (search_type : String) (k : Int) (score_threshold : Option ℚ)
    (filter_criteria : Option (List (String × String))) (fetch_k : Option Int) :
    Except String Retriever :=
  if search_type ∉ ["similarity", "mmr", "similarity_score_threshold"] then
    Except.error "Invalid search_type. Must be one of: [similarity, mmr, similarity_score_threshold]"
  else if search_type = "similarity_score_threshold" && score_threshold.isNone then
    Except.error "score_threshold is required for similarity_score_threshold"
  else
    Except.ok
      { search_type := search_type
        k := k
        score_threshold := score_threshold
        filter := match filter_criteria with
          | some f => if f ≠ [] then some f else none
          | none => none
        fetch_k := if search_type = "mmr" then fetch_k else none }

/-! ## Vector-store creation (`src/vector_db.py`)

`VectorDB.create_from_documents` rejects an empty document list and
otherwise builds a FAISS store from the documents; the external FAISS
build is modelled as the store holding exactly the given documents. -/

/-- `VectorDB.create_from_documents`: the empty-corpus guard, then the
external FAISS build (modelled by the document list itself). -/
def create_from_documents (documents : List Document) :
    Except String (List Document) :=
  if documents = [] then
    Except.error "No documents provided for vectorstore creation"
  else
    Except.ok documents

/-! ## Spec-side readings used for refinement comparisons -/

/-- The whole words of a string in the regex sense: maximal runs of word
characters (alphanumeric or underscore), lowered. -/
def pyWords (s : String) : List String :=
  splitDropAux (fun c => !wordChar c) [] (pyLower s).data

/-- Following the spec's words for the relevance post-filter fallback:
the fraction of query terms present in the chunk, case-insensitive,
matched as whole words (not substrings). -/
def specWholeWordOverlap (query content : String) : ℚ :=
  let query_terms := (pySplitWS (pyLower query)).dedup
  let words := pyWords content
  let nmatches := (query_terms.filter (fun t => t ∈ words)).length
  (nmatches : ℚ) / (max 1 query_terms.length : ℚ)

/-- Following the claim's words for year extraction: look only at the
first of the ordered fields that is present, and pattern-match there;
any field present without a matching year yields the empty string. -/
def specExtractYearFirstPresent (md : Metadata) : String :=
  match yearFields.find? (fun f => (md.lookup f).isSome) with
  | none => ""
  | some f => (((md.lookup f).bind findYear).getD "")

/-! ## Helper lemmas -/

/-- A string ending in the closing bracket is never empty. -/
theorem append_bracket_ne (s : String) : s ++ "]" ≠ "" := by
  intro h
  have h2 : (s ++ "]").length = ("" : String).length := by rw [h]
  rw [String.length_append] at h2
  have h3 : ("]" : String).length = 1 := rfl
  have h4 : ("" : String).length = 0 := rfl
  omega

theorem format_guideline_citation_ne (md : Metadata) :
    format_guideline_citation md ≠ "" :=
  append_bracket_ne _

theorem format_research_citation_ne (md : Metadata) :
    format_research_citation md ≠ "" :=
  append_bracket_ne _

theorem format_educational_citation_ne (md : Metadata) :
    format_educational_citation md ≠ "" :=
  append_bracket_ne _

theorem format_web_citation_ne (md : Metadata) :
    format_web_citation md ≠ "" :=
  append_bracket_ne _

theorem format_default_citation_ne (md : Metadata) :
    format_default_citation md ≠ "" :=
  append_bracket_ne _

/-- The header-scanning loop returns the first stripped line passing the
header test, or the empty string. -/
theorem extract_section_header_go_eq (ls : List String) :
    extract_section_header_go ls =
      (((ls.map pyStrip).find? is_header_line).getD "") := by
  induction ls with
  | nil => rfl
  | cons l ls ih =>
    simp only [extract_section_header_go, List.map_cons, List.find?_cons]
    by_cases h : is_header_line (pyStrip l)
    · simp [h]
    · simp [h, ih]

/-- The year-extraction loop returns the first pattern match across the
fields present, in field order. -/
theorem extract_year_go_eq (md : Metadata) (fs : List String) :
    extract_year_go md fs =
      ((fs.filterMap (fun f => (md.lookup f).bind findYear)).headD "") := by
  induction fs with
  | nil => rfl
  | cons f fs ih =>
    simp only [extract_year_go, List.filterMap_cons]
    cases h : md.lookup f with
    | none => simpa using ih
    | some v =>
      cases hy : findYear v with
      | none => simp [hy, ih]
      | some y => simp [hy]

/-! ## Concrete inputs used by counterexamples and witnesses -/

/-- The metadata of the research-article citation scenario. -/
def researchScenarioMd : Metadata :=
  [("source_type", "research_article"),
   ("authors", "Smith, J, Doe, A, Lee, C"),
   ("title", "Long Title Exceeding Five Words For Sure"),
   ("journal", "J. Med"),
   ("year", "2021"),
   ("doi", "10.1/x")]

/-- A document whose text contains the query term only as a proper
substring, never as a whole word. -/
def catDoc : Document :=
  { page_content := "concatenate", metadata := [] }

/-- A document carrying a declared relevance score. -/
def scoredDoc : Document :=
  { page_content := "alpha", metadata := [("score", 1)] }

/-- A document without a declared relevance score. -/
def unscoredDoc : Document :=
  { page_content := "beta", metadata := [] }

/-- Metadata whose first date-bearing field is present but holds no year,
while a later field does. -/
def yearGapMd : Metadata :=
  [("year", "n/a"), ("date", "2020")]

/-! ## Claims -/

/-- C1: `format_citation` is total and non-empty on every metadata
mapping; an unknown or absent `source_type` dispatches to the default
format, and on the empty mapping the result is exactly the bracketed
fallback label `[Source]`. -/
theorem c1_format_citation_total_nonempty :
    (∀ md : Metadata, format_citation md ≠ "") ∧
    (∀ md : Metadata,
      pyLower (mget md "source_type" "") ∉
        ["official_guideline", "research_article", "educational_material", "web_page"] →
      format_citation md = format_default_citation md) ∧
    format_citation [] = "[Source]" := by
  refine ⟨fun md => ?_, fun md h => ?_, rfl⟩
  · simp only [format_citation]
    split
    · exact format_guideline_citation_ne md
    · split
      · exact format_research_citation_ne md
      · split
        · exact format_educational_citation_ne md
        · split
          · exact format_web_citation_ne md
          · exact format_default_citation_ne md
  · simp only [List.mem_cons, List.mem_singleton, not_or] at h
    obtain ⟨h1, h2, h3, h4, -⟩ := h
    simp only [format_citation, if_neg h1, if_neg h2, if_neg h3, if_neg h4]

/-- C1 witness: an unknown source type concretely dispatches to the
default format. -/
theorem c1_witness :
    format_citation [("source_type", "unknown_type")] =
      format_default_citation [("source_type", "unknown_type")] :=
  c1_format_citation_total_nonempty.2.1 [("source_type", "unknown_type")] (by decide)

/-- C2 counterexample: for the research-article scenario metadata the
citation does not contain `Smith, J et al.` (the author list is split on
every comma, so the first author is just `Smith`), and the title is
truncated to six words, not five; the full citation is computed exactly. -/
theorem c2_counterexample :
    containsSub (format_citation researchScenarioMd) "Smith, J et al." = false ∧
    format_citation researchScenarioMd =
      "[Smith et al. 'Long Title Exceeding Five Words For...', J. Med 2021 DOI:10.1/x]" :=
  ⟨rfl, rfl⟩

/-- C2 amended: for the research-article scenario metadata the citation
contains `Smith et al.`, a six-word-truncated title ending in `...`,
`J. Med`, `2021` and `DOI:10.1/x`. -/
theorem c2_research_scenario :
    containsSub (format_citation researchScenarioMd) "Smith et al." = true ∧
    containsSub (format_citation researchScenarioMd) "'Long Title Exceeding Five Words For...'" = true ∧
    containsSub (format_citation researchScenarioMd) "J. Med" = true ∧
    containsSub (format_citation researchScenarioMd) "2021" = true ∧
    containsSub (format_citation researchScenarioMd) "DOI:10.1/x" = true :=
  ⟨rfl, rfl, rfl, rfl, rfl⟩

/-- C3 counterexample: with no declared score, a document whose text
contains the query term only as a substring (never as a whole word) is
kept by the filter even though its whole-word overlap fraction is below
the minimum score, refuting the whole-word reading of the claim. -/
theorem c3_counterexample :
    filter_documents_by_relevance [catDoc] "cat" (1/2) "score" = [catDoc] ∧
    ¬ (specWholeWordOverlap "cat" catDoc.page_content ≥ (1/2 : ℚ)) := by
  constructor
  · have hov : overlapFrac "cat" catDoc.page_content =
        ((1 : Nat) : ℚ) / ((max 1 1 : Nat) : ℚ) := rfl
    have hge : overlapFrac "cat" catDoc.page_content ≥ (1/2 : ℚ) := by
      rw [hov]; norm_num
    have h0 : (catDoc.metadata.lookup "score").isSome = false := rfl
    simp [filter_documents_by_relevance, h0, List.filter_cons, hge]
    rw [hov]
    norm_num
  · have hsw : specWholeWordOverlap "cat" catDoc.page_content =
        ((0 : Nat) : ℚ) / ((max 1 1 : Nat) : ℚ) := rfl
    rw [hsw]
    norm_num

/-- C3 amended: when the first document carries no declared score, the
filter keeps a document iff the fraction of distinct query terms that
occur as (case-insensitive) substrings of its text is at least the
minimum score; when the first document does carry a score, a document is
kept iff its own score (defaulting to 0) is at least the minimum. -/
theorem c3_relevance_filter (d0 : Document) (rest : List Document)
    (query : String) (min_score : ℚ) (score_field : String) (d : Document) :
    (d0.metadata.lookup score_field = none →
      (d ∈ filter_documents_by_relevance (d0 :: rest) query min_score score_field ↔
        d ∈ d0 :: rest ∧ overlapFrac query d.page_content ≥ min_score)) ∧
    ((d0.metadata.lookup score_field).isSome →
      (d ∈ filter_documents_by_relevance (d0 :: rest) query min_score score_field ↔
        d ∈ d0 :: rest ∧ (d.metadata.lookup score_field).getD 0 ≥ min_score)) := by
  constructor
  · intro h
    simp [filter_documents_by_relevance, h, List.mem_filter]
  · intro h
    simp [filter_documents_by_relevance, h, List.mem_filter]

/-- C3 witness: the lexical branch concretely characterizes membership. -/
theorem c3_witness :
    catDoc ∈ filter_documents_by_relevance [catDoc] "cat" (1/2) "score" ↔
      catDoc ∈ [catDoc] ∧ overlapFrac "cat" catDoc.page_content ≥ (1/2 : ℚ) :=
  (c3_relevance_filter catDoc [] "cat" (1/2) "score" catDoc).1 rfl

/-- C4: requesting a `similarity_score_threshold` retriever with no
threshold fails with the validation error, and with any threshold value
the construction succeeds. -/
theorem c4_threshold_validation :
    (∀ (k : Int) (f : Option (List (String × String))) (fk : Option Int),
      get_retriever "similarity_score_threshold" k none f fk =
        Except.error "score_threshold is required for similarity_score_threshold") ∧
    (∀ (k : Int) (t : ℚ) (f : Option (List (String × String))) (fk : Option Int),
      ∃ r : Retriever,
        get_retriever "similarity_score_threshold" k (some t) f fk = Except.ok r) := by
  constructor
  · intro k f fk
    rfl
  · intro k t f fk
    exact ⟨_, rfl⟩

/-- C5: building the vector store from an empty document list fails with
the empty-corpus error (no store is produced), and for any non-empty
list the error branch is not taken. -/
theorem c5_empty_corpus (documents : List Document) :
    create_from_documents [] =
      Except.error "No documents provided for vectorstore creation" ∧
    (documents ≠ [] → create_from_documents documents = Except.ok documents) := by
  refine ⟨rfl, fun h => ?_⟩
  simp [create_from_documents, h]

/-- C5 witness: a concrete singleton corpus builds successfully while the
empty corpus errors. -/
theorem c5_witness :
    create_from_documents [catDoc] = Except.ok [catDoc] ∧
    create_from_documents [] =
      Except.error "No documents provided for vectorstore creation" :=
  ⟨(c5_empty_corpus [catDoc]).2 (by simp), (c5_empty_corpus []).1⟩

/-- C6 counterexample: on metadata whose `year` field is present but
holds no 1900–2099 year while the later `date` field does, the code
returns the year from the later field, whereas the claim's reading
(pattern match only in the first field that is present) yields the empty
string. -/
theorem c6_counterexample :
    extract_year yearGapMd = "2020" ∧
    specExtractYearFirstPresent yearGapMd = "" :=
  ⟨rfl, rfl⟩

/-- C6 amended: year extraction scans the fixed ordered field list and
returns the first 1900–2099 pattern match among the fields that are
present, skipping present fields whose value contains no such year; if
no present field yields a year it returns the empty string. -/
theorem c6_extract_year (md : Metadata) :
    extract_year md =
      ((yearFields.filterMap (fun f => (md.lookup f).bind findYear)).headD "") :=
  extract_year_go_eq md yearFields

/-- C7: when the response already contains the substring `disclaimer`
(case-insensitively), formatting with disclaimers enabled appends
nothing: the result is exactly the truncation step applied to the
unchanged response. -/
theorem c7_disclaimer_nondup (response : String) (max_length : Nat) (domain : String)
    (h : containsSub (pyLower response) "disclaimer" = true) :
    format_response response max_length true domain =
      truncate_response response max_length := by
  simp [format_response, h]

/-- C7 witness: a concrete response that already mentions a disclaimer
passes through unchanged. -/
theorem c7_witness :
    format_response "Short answer. Disclaimer: see a professional." 2000 true "general" =
      truncate_response "Short answer. Disclaimer: see a professional." 2000 :=
  c7_disclaimer_nondup "Short answer. Disclaimer: see a professional." 2000 "general" rfl

/-- C8: section-header detection returns the first stripped line among
the first three lines that is upper-case, ends with a colon, or contains
a structural keyword, and the empty string when no examined line
qualifies. -/
theorem c8_section_header (text : String) :
    extract_section_header text =
      ((((pySplitChar text '\n').take 3).map pyStrip).find? is_header_line).getD "" :=
  extract_section_header_go_eq _

/-- C9: when no disclaimer is appended, a response longer than
`max_length` whose first `max_length` characters contain no period is
returned whole with the truncation marker appended, so the result still
exceeds `max_length`. -/
theorem c9_no_period_no_truncation (response : String) (max_length : Nat)
    (include_disclaimer : Bool) (domain : String)
    (hno : include_disclaimer = false ∨
      containsSub (pyLower response) "disclaimer" = true)
    (hlong : response.length > max_length)
    (hnop : ∀ c ∈ (pyTake response max_length).data, c ≠ '.') :
    format_response response max_length include_disclaimer domain =
      response ++ " [response truncated]" ∧
    max_length <
      (format_response response max_length include_disclaimer domain).length := by
  have hstep :
      format_response response max_length include_disclaimer domain =
        truncate_response response max_length := by
    rcases hno with h | h
    · simp [format_response, h]
    · simp [format_response, h]
  have hfind :
      (pyTake response max_length).data.reverse.findIdx? (fun c => c = '.') = none := by
    rw [List.findIdx?_eq_none_iff]
    intro c hc
    have := hnop c (List.mem_reverse.mp hc)
    simpa using this
  have hr : pyRfind (pyTake response max_length) '.' = -1 := by
    unfold pyRfind
    rw [hfind]
  have htr : truncate_response response max_length =
      response ++ " [response truncated]" := by
    unfold truncate_response
    rw [if_pos hlong, hr]
    norm_num
  refine ⟨hstep.trans htr, ?_⟩
  rw [hstep, htr, String.length_append]
  have h21 : (" [response truncated]" : String).length = 21 := rfl
  omega

/-- C9 witness: a concrete period-free overlong response is returned
whole with the marker. -/
theorem c9_witness :
    format_response "abcdef" 3 false "general" = "abcdef [response truncated]" ∧
    3 < (format_response "abcdef" 3 false "general").length :=
  c9_no_period_no_truncation "abcdef" 3 false "general" (Or.inl rfl) (by decide)
    (by decide)

/-- C10: when the first document carries the score field and the minimum
score is positive, any document lacking the score field is dropped by
the filter regardless of its text. -/
theorem c10_missing_score_dropped (d0 : Document) (rest : List Document)
    (query : String) (min_score : ℚ) (score_field : String) (d : Document)
    (h0 : (d0.metadata.lookup score_field).isSome)
    (hmin : 0 < min_score)
    (hd : d.metadata.lookup score_field = none) :
    d ∉ filter_documents_by_relevance (d0 :: rest) query min_score score_field := by
  simp only [filter_documents_by_relevance, h0, if_true]
  intro hmem
  rw [List.mem_filter] at hmem
  have hscore := hmem.2
  rw [hd] at hscore
  simp only [Option.getD_none, ge_iff_le, decide_eq_true_eq] at hscore
  exact absurd (lt_of_lt_of_le hmin hscore) (lt_irrefl 0)

/-- C10 witness: a concrete later document without a score is dropped
even though its text is irrelevant to the check. -/
theorem c10_witness :
    unscoredDoc ∉
      filter_documents_by_relevance [scoredDoc, unscoredDoc] "query" (1/2) "score" :=
  c10_missing_score_dropped scoredDoc [unscoredDoc] "query" (1/2) "score" unscoredDoc
    rfl (by norm_num) rfl

end RagReader
